import Mathlib

/-!
Verification of the token-lifecycle manager of `visionpluspython`
(`src/visionpluspython/auth.py`, constants in `src/visionpluspython/const.py`).

The Python class `WattsVisionAuth` is embedded shallowly:

* mutable attributes (`self._access_token`, `self._token_expires_at`,
  `self.refresh_token`, …) become fields of the state record `AuthState`;
* wall-clock time (`time.time()`) is passed explicitly as an integer `now`
  (seconds); the code compares times with `<` and adds seconds, which is
  preserved exactly by the integer model;
* the single HTTP POST to the OAuth2 token endpoint performed by
  `_refresh_access_token` becomes an explicit input `PostResult` describing
  the outcome of that network exchange (an HTTP response with a status, a
  body text and a parsed JSON body, an `aiohttp.ClientError`, or any other
  exception raised during the exchange);
* raised exceptions become an `ErrKind` result; Python state mutations
  performed before a raise persist, so the embedded functions return the
  (possibly mutated) state together with the outcome;
* Python truthiness (`if not self._access_token`, `if not self.refresh_token`,
  `if not self._token_expires_at`) is modelled by `pyTruthyStr` /
  `pyTruthyNum`: `None` and the empty string (resp. `None` and `0`) are falsy.

The exception classes live in `exceptions.py`, which is not part of the
sources; following the spec, `WattsVisionAuthError` and
`WattsVisionConnectionError` are two distinct error kinds, and neither is an
`aiohttp.ClientError`.
-/

/-- The two error kinds of the library.  Modelled from the spec:
`exceptions.py` is not among the sources; the spec states two distinct error
kinds, `AuthError` (`WattsVisionAuthError`) and `ConnectionError`
(`WattsVisionConnectionError`), carrying a message. -/
inductive ErrKind where
  | authError (msg : String)
  | connectionError (msg : String)
  deriving DecidableEq, Repr

/-- Python truthiness of an optional string: `None` and `""` are falsy. -/
def pyTruthyStr : Option String → Bool
  | none => false
  | some s => !s.isEmpty

/-- Python truthiness of an optional number: `None` and `0` are falsy. -/
def pyTruthyNum : Option Int → Bool
  | none => false
  | some x => x != 0

/-- The mutable state of a `WattsVisionAuth` instance: credentials and token
storage (`auth.py`, `__init__`).  The HTTP session and its ownership flag play
no role in the token-lifecycle claims and are omitted. -/
structure AuthState where
  client_id : String
  client_secret : String
  refresh_token : Option String
  access_token : Option String
  token_expires_at : Option Int
  deriving DecidableEq, Repr

/-- Embedding of `WattsVisionAuth.__init__`: credentials stored, token storage empty. -/
def initAuth (client_id client_secret : String)
    (refresh_token : Option String) : AuthState :=
  { client_id := client_id
    client_secret := client_secret
    refresh_token := refresh_token
    access_token := none
    token_expires_at := none }

/-- The JSON body of a token-endpoint response, as consumed by
`_refresh_access_token`.  `access_token` and `expires_in` are read with
`.get` (absent ↦ `none`); for `refresh_token` the code tests key membership,
so the field is `none` when the key is absent and `some v` when the key is
present with value `v` (`v = none` models JSON `null`). -/
structure TokenData where
  access_token : Option String
  expires_in : Option Int
  refresh_token_field : Option (Option String)
  deriving DecidableEq, Repr

/-- Outcome of the `session.post` exchange in `_refresh_access_token`,
together with reading the response body: an HTTP response (status, body text,
parsed JSON), an `aiohttp.ClientError` (connection refused, DNS failure,
timeout at the transport level), or any other exception. -/
inductive PostResult where
  | ok (status : Nat) (bodyText : String) (tokenData : TokenData)
  | clientError (msg : String)
  | otherError (msg : String)
  deriving DecidableEq, Repr

/-- Embedding of `WattsVisionAuth._is_token_valid`: the cached token is valid when it and
the expiry are truthy and `time.time() < expires_at - 60`. -/
def is_token_valid (s : AuthState) (now : Int) : Bool :=
  if !pyTruthyStr s.access_token || !pyTruthyNum s.token_expires_at then
    false
  else
    decide (now < s.token_expires_at.getD 0 - 60)

/-- The form data `_refresh_access_token` posts to the token endpoint. -/
structure RefreshRequest where
  grant_type : String
  client_id : String
  client_secret : String
  refresh_token : Option String
  deriving DecidableEq, Repr

/-- The request body built at the top of `_refresh_access_token`. -/
def buildRefreshRequest (s : AuthState) : RefreshRequest :=
  { grant_type := "refresh_token"
    client_id := s.client_id
    client_secret := s.client_secret
    refresh_token := s.refresh_token }

/-- Embedding of `WattsVisionAuth._refresh_access_token`.  Returns the state after the
call (mutations made before a raise persist) and the raised error, if any.
A `WattsVisionAuthError` raised inside the `try` block (non-200 status,
missing access token) is caught by the final `except Exception` handler and
re-raised as `WattsVisionAuthError("Authentication failed: …")`; the
`WattsVisionConnectionError` raised inside the `except aiohttp.ClientError`
handler propagates unchanged. -/
def refresh_access_token (s : AuthState) (now : Int) (r : PostResult) :
    AuthState × Option ErrKind :=
  match r with
  | .ok status bodyText td =>
    if status ≠ 200 then
      (s, some (.authError
        ("Authentication failed: Token request failed with status "
          ++ toString status ++ ": " ++ bodyText)))
    else
      let s1 := { s with access_token := td.access_token }
      if !pyTruthyStr td.access_token then
        (s1, some (.authError "Authentication failed: No access token in response"))
      else
        let expires_in := td.expires_in.getD 3600
        let s2 := { s1 with token_expires_at := some (now + expires_in) }
        let s3 :=
          match td.refresh_token_field with
          | some v => { s2 with refresh_token := v }
          | none => s2
        (s3, none)
  | .clientError msg =>
      (s, some (.connectionError ("Connection error during authentication: " ++ msg)))
  | .otherError msg =>
      (s, some (.authError ("Authentication failed: " ++ msg)))

/-- Embedding of `WattsVisionAuth.get_access_token`.  The whole body runs under
`self._lock`; `r` is the outcome of the network exchange should one be
issued.  Returns the state after the call, the result (the returned
`self._access_token` or the raised error), and the number of network calls
issued (0 or 1). -/
def get_access_token (s : AuthState) (now : Int) (r : PostResult) :
    AuthState × Except ErrKind (Option String) × Nat :=
  if is_token_valid s now then
    (s, .ok s.access_token, 0)
  else if !pyTruthyStr s.refresh_token then
    (s, .error (.authError "No refresh token available. Please reauth."), 0)
  else
    match refresh_access_token s now r with
    | (s', none) => (s', .ok s'.access_token, 1)
    | (s', some e) => (s', .error e, 1)

deriving instance DecidableEq for Except

/-!
Cooperative-concurrency model of `get_access_token`.

`get_access_token` runs its whole body inside `async with self._lock`.  Under
the cooperative scheduling of asyncio the only suspension points of a caller are
(a) acquiring the lock and (b) the `session.post` network exchange inside
`_refresh_access_token`.  Everything between two suspension points executes
atomically.  A caller is therefore in one of three phases:

* `start`: has not yet acquired the lock;
* `awaitingNet`: holds the lock and has issued the network exchange, which is
  in flight (this is where the count of network calls is incremented);
* `done r`: its `get_access_token` call returned `r` and the lock is released
  (Python releases the lock on both normal return and raise, since the whole
  body is inside the `async with` block).

A schedule is an arbitrary list of caller indices; scheduling a caller makes
it run to its next suspension point (or do nothing when it is blocked on the
lock, finished, or out of range).  All interleavings of `n` concurrent
callers are captured by quantifying over schedules. -/

/-- Phase of one logical caller of `get_access_token`. -/
inductive CallerPC where
  | start
  | awaitingNet
  | done (res : Except ErrKind (Option String))
  deriving DecidableEq, Repr

/-- Global configuration: shared manager state, the phase of each caller,
the holder of `self._lock` (if any), and how many network exchanges have
been issued so far. -/
structure Config where
  st : AuthState
  callers : List CallerPC
  lock : Option Nat
  netCalls : Nat
  deriving DecidableEq, Repr

/-- Run caller `i` to its next suspension point, with `now` the current time
and `r` the outcome of its network exchange should one be in flight.  A
`start` caller blocked on the lock, a finished caller, and an out-of-range
index leave the configuration unchanged. -/
def stepCaller (now : Int) (r : PostResult) (c : Config) (i : Nat) : Config :=
  match c.callers.get? i with
  | none => c
  | some .start =>
    match c.lock with
    | some _ => c
    | none =>
      if is_token_valid c.st now then
        { c with callers := c.callers.set i (.done (.ok c.st.access_token)) }
      else if !pyTruthyStr c.st.refresh_token then
        { c with callers := c.callers.set i (.done (.error (.authError
            "No refresh token available. Please reauth."))) }
      else
        { c with callers := c.callers.set i .awaitingNet,
                 lock := some i, netCalls := c.netCalls + 1 }
  | some .awaitingNet =>
    match refresh_access_token c.st now r with
    | (s', none) =>
        { c with st := s', callers := c.callers.set i (.done (.ok s'.access_token)),
                 lock := none }
    | (s', some e) =>
        { c with st := s', callers := c.callers.set i (.done (.error e)),
                 lock := none }
  | some (.done _) => c

/-- Run a whole schedule of caller activations. -/
def runSched (now : Int) (r : PostResult) (c : Config) : List Nat → Config
  | [] => c
  | i :: rest => runSched now r (stepCaller now r c i) rest

/-- Configuration of `n` concurrent callers of `get_access_token` on a manager
in state `s`, none started yet. -/
def initConfig (s : AuthState) (n : Nat) : Config :=
  { st := s, callers := List.replicate n .start, lock := none, netCalls := 0 }

/-- Inductive invariant of the single-flight refresh episode: starting from
the invalid state `s0`, either no network call has been issued and nothing
has moved; or the single network call is in flight, its issuer holds the
lock and everyone else is still waiting; or the single refresh has landed,
the shared state is the refreshed `s1`, the lock is free, and every finished
caller got the refreshed token `tok`. -/
def singleFlightInv (s0 s1 : AuthState) (tok : String) (c : Config) : Prop :=
  (c.netCalls = 0 ∧ c.lock = none ∧ c.st = s0
    ∧ ∀ k pc, c.callers.get? k = some pc → pc = .start)
  ∨ (c.netCalls = 1 ∧ c.st = s0
    ∧ ∃ j, c.lock = some j ∧ c.callers.get? j = some .awaitingNet
      ∧ ∀ k pc, c.callers.get? k = some pc → pc = .start ∨ (k = j ∧ pc = .awaitingNet))
  ∨ (c.netCalls = 1 ∧ c.lock = none ∧ c.st = s1
    ∧ ∀ k pc, c.callers.get? k = some pc → pc = .start ∨ pc = .done (.ok (some tok)))

/-!
Unsigned JWT decoding (`extract_user_id_from_token`).

`extract_user_id_from_token` calls `jwt.decode(token,
options={"verify_signature": False})` from the PyJWT library, which is not
part of the sources.  Following the description in the spec — split the compact
serialization into header, payload and signature segments, base64url-decode,
JSON-parse the header and the payload (each must be a JSON object), and read
the payload without verifying the signature — the decode is modelled below as
a total function into `Option`: every decode failure (which PyJWT reports as
a `DecodeError`/`InvalidTokenError`, caught by the source) collapses to
`none`.  Bytes are interpreted as character codes. -/

/-- Value of one character of the base64url alphabet. -/
def b64Val (c : Char) : Option Nat :=
  if 'A' ≤ c ∧ c ≤ 'Z' then some (c.toNat - 65)
  else if 'a' ≤ c ∧ c ≤ 'z' then some (c.toNat - 97 + 26)
  else if '0' ≤ c ∧ c ≤ '9' then some (c.toNat - 48 + 52)
  else if c = '-' then some 62
  else if c = '_' then some 63
  else none

/-- Streaming base64 bit accumulator: `acc` holds `bits` pending bits; a byte
is emitted whenever eight are available.  Fails on a character outside the
alphabet. -/
def b64DecodeAux : List Char → Nat → Nat → List Nat → Option (List Nat)
  | [], _, _, out => some out.reverse
  | c :: cs, acc, bits, out =>
    match b64Val c with
    | none => none
    | some v =>
      let acc' := acc * 64 + v
      let bits' := bits + 6
      if 8 ≤ bits' then
        b64DecodeAux cs (acc' % 2 ^ (bits' - 8)) (bits' - 8) (acc' / 2 ^ (bits' - 8) :: out)
      else
        b64DecodeAux cs acc' bits' out

/-- Modelled from the spec: base64url decoding as performed by the PyJWT function
`base64url_decode` (missing from the sources), ignoring trailing padding. -/
def b64urlDecode (s : String) : Option (List Nat) :=
  b64DecodeAux ((s.data.reverse.dropWhile (· = '=')).reverse) 0 0 []

/-- Decoded bytes read back as text (character codes; the claims only
involve ASCII payloads). -/
def bytesToString (bs : List Nat) : String :=
  String.mk (bs.map Char.ofNat)

/-- JSON values, as produced by parsing a decoded JWT segment. -/
inductive Json where
  | null
  | bool (b : Bool)
  | num (n : Int)
  | str (s : String)
  | arr (elems : List Json)
  | obj (fields : List (String × Json))

/-- Skip JSON whitespace. -/
def skipWs (cs : List Char) : List Char :=
  cs.dropWhile fun c => c = ' ' || c = '\n' || c = '\t' || c = '\r'

/-- Value of a hexadecimal digit. -/
def hexVal (c : Char) : Option Nat :=
  if '0' ≤ c ∧ c ≤ '9' then some (c.toNat - 48)
  else if 'a' ≤ c ∧ c ≤ 'f' then some (c.toNat - 97 + 10)
  else if 'A' ≤ c ∧ c ≤ 'F' then some (c.toNat - 65 + 10)
  else none

/-- Single-character JSON escapes. -/
def escChar (c : Char) : Option Char :=
  if c = '"' then some '"'
  else if c = '\\' then some '\\'
  else if c = '/' then some '/'
  else if c = 'n' then some '\n'
  else if c = 't' then some '\t'
  else if c = 'r' then some '\r'
  else if c = 'b' then some (Char.ofNat 8)
  else if c = 'f' then some (Char.ofNat 12)
  else none

/-- Parse the body of a JSON string after the opening quote; `fuel` bounds
the number of consumed characters. -/
def parseStrBody : Nat → List Char → List Char → Option (String × List Char)
  | 0, _, _ => none
  | _ + 1, [], _ => none
  | fuel + 1, c :: rest, acc =>
    if c = '"' then some (String.mk acc.reverse, rest)
    else if c = '\\' then
      match rest with
      | [] => none
      | e :: rest2 =>
        if e = 'u' then
          match rest2 with
          | a :: b :: c2 :: d :: rest3 =>
            match hexVal a, hexVal b, hexVal c2, hexVal d with
            | some ha, some hb, some hc, some hd =>
                parseStrBody fuel rest3
                  (Char.ofNat (((ha * 16 + hb) * 16 + hc) * 16 + hd) :: acc)
            | _, _, _, _ => none
          | _ => none
        else
          match escChar e with
          | some ec => parseStrBody fuel rest2 (ec :: acc)
          | none => none
    else parseStrBody fuel rest (c :: acc)

/-- Parse a JSON integer (the claims involve no fractional numbers; a
fraction or exponent makes the parse fail, collapsing to `none` upstream). -/
def parseNum (cs : List Char) : Option (Json × List Char) :=
  let (neg, cs1) := match cs with
    | '-' :: rest => (true, rest)
    | _ => (false, cs)
  let digits := cs1.takeWhile Char.isDigit
  let rest := cs1.dropWhile Char.isDigit
  if digits.isEmpty then none
  else
    match rest with
    | '.' :: _ => none
    | 'e' :: _ => none
    | 'E' :: _ => none
    | _ =>
      let n : Nat := digits.foldl (fun a c => a * 10 + (c.toNat - 48)) 0
      some (.num (if neg then -(n : Int) else (n : Int)), rest)

mutual

/-- Parse one JSON value; `fuel` bounds the nesting depth. -/
def parseVal : Nat → List Char → Option (Json × List Char)
  | 0, _ => none
  | fuel + 1, cs =>
    match skipWs cs with
    | [] => none
    | '"' :: rest =>
      match parseStrBody (rest.length + 1) rest [] with
      | some (s, rest2) => some (.str s, rest2)
      | none => none
    | '{' :: rest => do
        let (fields, rest2) ← parseObjBody fuel rest
        pure (.obj fields, rest2)
    | '[' :: rest => do
        let (elems, rest2) ← parseArrBody fuel rest
        pure (.arr elems, rest2)
    | 't' :: 'r' :: 'u' :: 'e' :: rest => some (.bool true, rest)
    | 'f' :: 'a' :: 'l' :: 's' :: 'e' :: rest => some (.bool false, rest)
    | 'n' :: 'u' :: 'l' :: 'l' :: rest => some (.null, rest)
    | cs' => parseNum cs'

/-- Parse the fields of a JSON object after the opening brace. -/
def parseObjBody : Nat → List Char → Option (List (String × Json) × List Char)
  | 0, _ => none
  | fuel + 1, cs =>
    match skipWs cs with
    | '}' :: rest => some ([], rest)
    | '"' :: rest => do
        let (k, rest2) ← parseStrBody (rest.length + 1) rest []
        match skipWs rest2 with
        | ':' :: rest3 => do
            let (v, rest4) ← parseVal fuel rest3
            match skipWs rest4 with
            | ',' :: rest5 => do
                let (fields, rest6) ← parseObjBody fuel rest5
                pure ((k, v) :: fields, rest6)
            | '}' :: rest5 => pure ([(k, v)], rest5)
            | _ => none
        | _ => none
    | _ => none

/-- Parse the elements of a JSON array after the opening bracket. -/
def parseArrBody : Nat → List Char → Option (List Json × List Char)
  | 0, _ => none
  | fuel + 1, cs =>
    match skipWs cs with
    | ']' :: rest => some ([], rest)
    | cs' => do
        let (v, rest) ← parseVal fuel cs'
        match skipWs rest with
        | ',' :: rest2 => do
            let (elems, rest3) ← parseArrBody fuel rest2
            pure (v :: elems, rest3)
        | ']' :: rest2 => pure ([v], rest2)
        | _ => none

end

/-- Parse a whole string as one JSON object (as `json.loads` does for a JWT
segment, which must be a JSON object and must consume the full input). -/
def parseJsonObj (s : String) : Option (List (String × Json)) :=
  match parseVal (s.length + 1) s.data with
  | some (.obj fields, rest) => if (skipWs rest).isEmpty then some fields else none
  | _ => none

/-- Lookup as `dict.get` does it: the last binding of a key wins, as in `json.loads`. -/
def dictGet (fields : List (String × Json)) (key : String) : Option Json :=
  fields.reverse.lookup key

/-- Split a character list at every `'.'` (the compact-JWT separator). -/
def splitSegs : List Char → List Char → List (List Char)
  | [], acc => [acc.reverse]
  | c :: cs, acc =>
    if c = '.' then acc.reverse :: splitSegs cs []
    else splitSegs cs (c :: acc)

/-- Modelled from the spec: `jwt.decode(token, options={"verify_signature":
False})` from PyJWT (missing from the sources) — split into three segments,
base64url-decode and JSON-parse header and payload, return the payload
object; any failure collapses to `none` (PyJWT raises `DecodeError`, a
`jwt.InvalidTokenError`, which the source catches). -/
def jwtDecodeUnverified (token : String) : Option (List (String × Json)) :=
  match splitSegs token.data [] with
  | [h, p, _sig] => do
      let hb ← b64urlDecode (String.mk h)
      let _ ← parseJsonObj (bytesToString hb)
      let pb ← b64urlDecode (String.mk p)
      parseJsonObj (bytesToString pb)
  | _ => none

/-- Embedding of `WattsVisionAuth.extract_user_id_from_token`: decode without signature
verification and return the `sub` claim; any decode failure (caught as
`jwt.DecodeError` / `jwt.InvalidTokenError` / `KeyError` in the source)
yields `None`. -/
def extract_user_id_from_token (token : String) : Option Json :=
  match jwtDecodeUnverified token with
  | some fields => dictGet fields "sub"
  | none => none

/-- A sample state with a cached token, used in scratch checks. -/
def sampleValid : AuthState :=
  { client_id := "c", client_secret := "x", refresh_token := some "rt",
    access_token := some "tok", token_expires_at := some 1000 }

/-- The token-state invariant of the spec, with "the access token exists"
read as the code reads it (`if not self._access_token`): a truthy (non-null,
non-empty) cached access token comes with a non-null expiry timestamp. -/
def tokenInvariant (s : AuthState) : Prop :=
  pyTruthyStr s.access_token = true → s.token_expires_at.isSome = true

instance (s : AuthState) : Decidable (tokenInvariant s) := by
  unfold tokenInvariant; infer_instance

/-- A state whose cached (stale) token an unsuccessful refresh clobbers. -/
def c3state : AuthState :=
  { client_id := "c", client_secret := "x", refresh_token := some "rt",
    access_token := some "old", token_expires_at := some 100 }

/-- The token endpoint answering HTTP 200 with a JSON body that has no
`access_token` key. -/
def c3resp : PostResult :=
  .ok 200 "{}" { access_token := none, expires_in := none, refresh_token_field := none }

/-- A 200 response whose `access_token` is the empty string. -/
def c9resp : PostResult :=
  .ok 200 "" { access_token := some "", expires_in := some 7200,
               refresh_token_field := none }

/-! Helper lemmas. -/

theorem pyTruthyStr_of_ne {t : String} (h : t ≠ "") : pyTruthyStr (some t) = true := by
  cases h2 : t.isEmpty
  · simp [pyTruthyStr, h2]
  · exact absurd ((String.isEmpty_iff t).mp h2) h

theorem pyTruthyStr_elim {o : Option String} (h : pyTruthyStr o = true) :
    ∃ t, o = some t ∧ t ≠ "" := by
  match o with
  | none => exact absurd h (by simp [pyTruthyStr])
  | some t =>
    refine ⟨t, rfl, fun he => ?_⟩
    subst he
    exact absurd h (by decide)

/-- Effect of a fully successful token exchange on the manager state. -/
theorem refresh_success (s : AuthState) (now : Int) (body : String) (td : TokenData)
    (h : pyTruthyStr td.access_token = true) :
    refresh_access_token s now (.ok 200 body td)
      = ({ s with
            access_token := td.access_token,
            token_expires_at := some (now + td.expires_in.getD 3600),
            refresh_token :=
              match td.refresh_token_field with
              | some v => v
              | none => s.refresh_token }, none) := by
  unfold refresh_access_token
  simp only [h]
  cases td.refresh_token_field <;> simp

/-- Validity of the cached token from its components. -/
theorem is_token_valid_true (s : AuthState) (now : Int) (tok : String) (e : Int)
    (htok : s.access_token = some tok) (hne : tok ≠ "")
    (he : s.token_expires_at = some e) (h0 : e ≠ 0) (hlt : now < e - 60) :
    is_token_valid s now = true := by
  unfold is_token_valid
  rw [htok, he, pyTruthyStr_of_ne hne]
  simp only [pyTruthyNum]
  simp [h0, hlt]

/-! The claims. -/

/-- C1: for every manager state in which a cached access token exists
(in the sense of the code: non-null and non-empty) and its expiry timestamp is
more than 60 seconds later than the current time, `get_access_token` returns
that cached token, performs no refresh exchange (0 network calls) and leaves
the whole state — access token, expiry timestamp, refresh token — unchanged,
whatever the token endpoint would have answered. -/
theorem getAccessToken_cached_fast_path (s : AuthState) (now : Int) (r : PostResult)
    (tok : String) (e : Int)
    (htok : s.access_token = some tok) (hne : tok ≠ "")
    (he : s.token_expires_at = some e)
    (hnow : 0 ≤ now) (hfresh : now + 60 < e) :
    get_access_token s now r = (s, .ok (some tok), 0) := by
  have h0 : e ≠ 0 := by omega
  have hv : is_token_valid s now = true :=
    is_token_valid_true s now tok e htok hne he h0 (by omega)
  unfold get_access_token
  rw [hv]
  simp [htok]

theorem getAccessToken_cached_fast_path_witness :
    get_access_token sampleValid 100 (.clientError "timeout")
      = (sampleValid, .ok (some "tok"), 0) :=
  getAccessToken_cached_fast_path sampleValid 100 (.clientError "timeout")
    "tok" 1000 rfl (by decide) rfl (by decide) (by decide)

/-- Fields of the state left untouched by every failing refresh: the expiry
timestamp, the stored refresh token and the credentials.  (The cached access
token is *not* in this list: see the counterexample to C3.) -/
theorem refresh_failed_effects (s : AuthState) (now : Int) (r : PostResult)
    (h : (refresh_access_token s now r).2.isSome = true) :
    (refresh_access_token s now r).1.token_expires_at = s.token_expires_at
    ∧ (refresh_access_token s now r).1.refresh_token = s.refresh_token
    ∧ (refresh_access_token s now r).1.client_id = s.client_id
    ∧ (refresh_access_token s now r).1.client_secret = s.client_secret := by
  cases r with
  | ok status body td =>
    by_cases h200 : status = 200
    · subst h200
      by_cases htr : pyTruthyStr td.access_token = true
      · rw [refresh_success s now body td htr] at h
        simp at h
      · have htr' : pyTruthyStr td.access_token = false := by
          simpa using htr
        unfold refresh_access_token
        simp [htr']
    · unfold refresh_access_token
      simp [h200]
  | clientError m => exact ⟨rfl, rfl, rfl, rfl⟩
  | otherError m => exact ⟨rfl, rfl, rfl, rfl⟩

/-- C3, counterexample: a refresh attempt that fails with an error does
*not* always leave the token state unchanged: with a stale token cached, a
200 response without an `access_token` field makes `get_access_token` raise
`AuthError` *after* having overwritten the cached access token with `None`
(`auth.py` line 104 assigns `self._access_token` before line 106 checks it),
so the state after the failed call differs from the state before it. -/
theorem refresh_failure_preserves_state_cex :
    (get_access_token c3state 1000 c3resp).2.1
        = .error (.authError "Authentication failed: No access token in response")
      ∧ (get_access_token c3state 1000 c3resp).1 ≠ c3state
      ∧ (get_access_token c3state 1000 c3resp).1.access_token = none := by
  refine ⟨by decide, by decide, by decide⟩

/-- C3, amended: for every refresh attempt that fails with an error,
the expiry timestamp, the stored refresh token and the credentials are
unchanged; moreover a non-success HTTP status, a transport failure and any
other exception leave the whole state unchanged, while a 200 response whose
body lacks a usable `access_token` leaves everything unchanged *except* the
cached access token, which is overwritten with the absent (or falsy)
`access_token` value before the error is raised. -/
theorem refresh_failure_preserves_state (s : AuthState) (now : Int) (r : PostResult)
    (h : (refresh_access_token s now r).2.isSome = true) :
    ((refresh_access_token s now r).1.token_expires_at = s.token_expires_at
      ∧ (refresh_access_token s now r).1.refresh_token = s.refresh_token
      ∧ (refresh_access_token s now r).1.client_id = s.client_id
      ∧ (refresh_access_token s now r).1.client_secret = s.client_secret)
    ∧ (∀ m, r = .clientError m → (refresh_access_token s now r).1 = s)
    ∧ (∀ m, r = .otherError m → (refresh_access_token s now r).1 = s)
    ∧ (∀ st body td, r = .ok st body td → st ≠ 200 →
        (refresh_access_token s now r).1 = s)
    ∧ (∀ body td, r = .ok 200 body td →
        (refresh_access_token s now r).1 = { s with access_token := td.access_token }) := by
  refine ⟨refresh_failed_effects s now r h, ?_, ?_, ?_, ?_⟩
  · rintro m rfl
    rfl
  · rintro m rfl
    rfl
  · rintro st body td rfl hst
    unfold refresh_access_token
    simp [hst]
  · rintro body td rfl
    by_cases htr : pyTruthyStr td.access_token = true
    · rw [refresh_success s now body td htr] at h
      simp at h
    · have htr' : pyTruthyStr td.access_token = false := by simpa using htr
      unfold refresh_access_token
      simp [htr']

theorem refresh_failure_preserves_state_witness :
    ((refresh_access_token c3state 1000 c3resp).1.token_expires_at
        = c3state.token_expires_at
      ∧ (refresh_access_token c3state 1000 c3resp).1.refresh_token
        = c3state.refresh_token)
    ∧ (refresh_access_token c3state 1000 c3resp).1
        = { c3state with access_token := none } := by
  have h := refresh_failure_preserves_state c3state 1000 c3resp (by decide)
  exact ⟨⟨h.1.1, h.1.2.1⟩, h.2.2.2.2 "{}"
    { access_token := none, expires_in := none, refresh_token_field := none } rfl⟩

/-- C4: on every successful refresh (HTTP 200 with a usable
`access_token`), no error is raised and the new absolute expiry equals the
current time plus the `expires_in` of the response, which defaults to 3600
seconds when the field is absent. -/
theorem refresh_sets_expiry (s : AuthState) (now : Int) (body : String) (td : TokenData)
    (h : pyTruthyStr td.access_token = true) :
    (refresh_access_token s now (.ok 200 body td)).2 = none
    ∧ (refresh_access_token s now (.ok 200 body td)).1.token_expires_at
        = some (now + td.expires_in.getD 3600)
    ∧ (td.expires_in = none →
        (refresh_access_token s now (.ok 200 body td)).1.token_expires_at
          = some (now + 3600)) := by
  rw [refresh_success s now body td h]
  exact ⟨rfl, rfl, fun he => by rw [he]; rfl⟩

theorem refresh_sets_expiry_witness :
    (refresh_access_token sampleValid 50 (.ok 200 "{}"
        { access_token := some "n", expires_in := none,
          refresh_token_field := none })).2 = none
    ∧ (refresh_access_token sampleValid 50 (.ok 200 "{}"
        { access_token := some "n", expires_in := none,
          refresh_token_field := none })).1.token_expires_at = some 3650 :=
  have h := refresh_sets_expiry sampleValid 50 "{}"
    { access_token := some "n", expires_in := none, refresh_token_field := none }
    (by decide)
  ⟨h.1, h.2.2 rfl⟩

/-- C5: on every successful refresh: when the response body has no
`refresh_token` key the stored refresh token is retained unchanged; when it
has one, the stored refresh token is replaced by the value in the response, and
the replacement is what the next refresh request would send. -/
theorem refresh_token_rotation (s : AuthState) (now : Int) (body : String) (td : TokenData)
    (h : pyTruthyStr td.access_token = true) :
    (td.refresh_token_field = none →
      (refresh_access_token s now (.ok 200 body td)).1.refresh_token = s.refresh_token)
    ∧ (∀ v, td.refresh_token_field = some v →
        (refresh_access_token s now (.ok 200 body td)).1.refresh_token = v
        ∧ (buildRefreshRequest (refresh_access_token s now (.ok 200 body td)).1).refresh_token
            = v) := by
  rw [refresh_success s now body td h]
  constructor
  · intro he
    simp [he]
  · intro v hv
    simp [hv, buildRefreshRequest]

theorem refresh_token_rotation_witness :
    (refresh_access_token sampleValid 50 (.ok 200 "{}"
        { access_token := some "n", expires_in := some 100,
          refresh_token_field := none })).1.refresh_token = some "rt"
    ∧ (refresh_access_token sampleValid 50 (.ok 200 "{}"
        { access_token := some "n", expires_in := some 100,
          refresh_token_field := some (some "rt2") })).1.refresh_token = some "rt2" :=
  ⟨(refresh_token_rotation sampleValid 50 "{}"
      { access_token := some "n", expires_in := some 100,
        refresh_token_field := none } (by decide)).1 rfl,
   ((refresh_token_rotation sampleValid 50 "{}"
      { access_token := some "n", expires_in := some 100,
        refresh_token_field := some (some "rt2") } (by decide)).2 (some "rt2") rfl).1⟩

/-- C6: whenever the token endpoint responds with an HTTP status other
than 200 during a refresh, `get_access_token` fails with an `AuthError`
whose message contains the numeric status and the response body text, and
the state is unchanged.  (In the source the inner
`WattsVisionAuthError("Token request failed with status …")` is re-wrapped
by the final `except Exception` handler, which preserves both.) -/
theorem tokenEndpoint_error_authError (s : AuthState) (now : Int) (status : Nat)
    (body : String) (td : TokenData)
    (hv : is_token_valid s now = false)
    (hrt : pyTruthyStr s.refresh_token = true)
    (hs : status ≠ 200) :
    ∃ msg,
      get_access_token s now (.ok status body td) = (s, .error (.authError msg), 1)
      ∧ (∃ a b, msg = a ++ (toString status ++ b))
      ∧ (∃ c d, msg = c ++ (body ++ d)) := by
  refine ⟨"Authentication failed: Token request failed with status "
      ++ toString status ++ ": " ++ body, ?_, ?_, ?_⟩
  · unfold get_access_token refresh_access_token
    simp [hv, hrt, hs]
  · exact ⟨"Authentication failed: Token request failed with status ", ": " ++ body,
      by simp [String.append_assoc]⟩
  · refine ⟨"Authentication failed: Token request failed with status "
      ++ toString status ++ ": ", "", ?_⟩
    simp [String.append_assoc, String.append_empty]

theorem tokenEndpoint_error_authError_witness :
    ∃ msg,
      get_access_token sampleValid 10000
          (.ok 401 "\x7b\x22error\x22:\x22invalid_grant\x22\x7d"
            { access_token := none, expires_in := none, refresh_token_field := none })
        = (sampleValid, .error (.authError msg), 1)
      ∧ (∃ a b, msg = a ++ (toString 401 ++ b))
      ∧ (∃ c d, msg = c ++ ("\x7b\x22error\x22:\x22invalid_grant\x22\x7d" ++ d)) :=
  tokenEndpoint_error_authError sampleValid 10000 401
    "\x7b\x22error\x22:\x22invalid_grant\x22\x7d"
    { access_token := none, expires_in := none, refresh_token_field := none }
    (by decide) (by decide) (by decide)

/-- C7: every transport-level failure of the refresh exchange (the
`session.post` raising `aiohttp.ClientError`: connection refused, DNS
failure, timeout) surfaces from `get_access_token` as a `ConnectionError`
carrying the underlying message — a kind distinct from `AuthError` — with
the token state unchanged; and in the concurrency model a caller whose
in-flight exchange fails this way finishes with that `ConnectionError` and
releases the mutual-exclusion gate. -/
theorem transport_failure_connectionError (s : AuthState) (now : Int) (m : String)
    (hv : is_token_valid s now = false)
    (hrt : pyTruthyStr s.refresh_token = true) :
    get_access_token s now (.clientError m)
      = (s, .error (.connectionError ("Connection error during authentication: " ++ m)), 1)
    ∧ (∀ a b, ErrKind.connectionError a ≠ ErrKind.authError b)
    ∧ (∀ c i, c.callers.get? i = some .awaitingNet →
        (stepCaller now (.clientError m) c i).lock = none
        ∧ (stepCaller now (.clientError m) c i).callers.get? i
            = some (.done (.error (.connectionError
                ("Connection error during authentication: " ++ m))))) := by
  refine ⟨?_, fun a b h => ErrKind.noConfusion h, fun c i hi => ?_⟩
  · unfold get_access_token refresh_access_token
    simp [hv, hrt]
  · have hlen : i < c.callers.length := by
      cases h : c.callers.get? i with
      | none => rw [h] at hi; cases hi
      | some pc => exact (List.get?_eq_some.mp h).1
    unfold stepCaller
    rw [hi]
    unfold refresh_access_token
    exact ⟨rfl, List.get?_set_eq_of_lt _ hlen⟩

theorem transport_failure_connectionError_witness :
    get_access_token sampleValid 10000 (.clientError "Connection timeout")
      = (sampleValid,
         .error (.connectionError
           "Connection error during authentication: Connection timeout"), 1) :=
  (transport_failure_connectionError sampleValid 10000 "Connection timeout"
    (by decide) (by decide)).1

/-- C9, counterexample: `get_access_token` does *not* preserve the
invariant "access token non-null → expiry timestamp non-null": starting from
a fresh manager, a 200 response whose `access_token` is the empty string
makes the code store that (non-null, falsy) token and raise before ever
setting the expiry, leaving a non-null access token with a null expiry
timestamp. -/
theorem tokenInvariant_preserved_cex :
    (get_access_token (initAuth "c" "x" (some "rt")) 0 c9resp).1.access_token.isSome = true
    ∧ (get_access_token (initAuth "c" "x" (some "rt")) 0 c9resp).1.token_expires_at
        = none := by
  refine ⟨by decide, by decide⟩

/-- C9, amended: with "the access token is non-null" read as the code
reads it — truthy, i.e. non-null *and* non-empty — every operation preserves
the invariant: initialization establishes it, `get_access_token` (on success
and on every failure path) preserves it, and the expiry timestamp is exactly
the one set by the most recent successful refresh: a successful refresh sets
it to `now + expires_in` and a failed refresh leaves it untouched. -/
theorem tokenInvariant_preserved :
    (∀ cid cs rt, tokenInvariant (initAuth cid cs rt))
    ∧ (∀ s now r, tokenInvariant s → tokenInvariant (get_access_token s now r).1)
    ∧ (∀ s now r, tokenInvariant s → tokenInvariant (refresh_access_token s now r).1)
    ∧ (∀ s now r, (refresh_access_token s now r).2 = none →
        ∃ body td, r = .ok 200 body td
          ∧ (refresh_access_token s now r).1.token_expires_at
              = some (now + td.expires_in.getD 3600))
    ∧ (∀ s now r, (refresh_access_token s now r).2.isSome = true →
        (refresh_access_token s now r).1.token_expires_at = s.token_expires_at) := by
  have hrefresh : ∀ s now r, tokenInvariant s →
      tokenInvariant (refresh_access_token s now r).1 := by
    intro s now r hInv
    cases r with
    | ok status body td =>
      by_cases h200 : status = 200
      · subst h200
        by_cases htr : pyTruthyStr td.access_token = true
        · rw [refresh_success s now body td htr]
          intro _
          rfl
        · have htr' : pyTruthyStr td.access_token = false := by simpa using htr
          unfold refresh_access_token
          simp only [htr']
          intro hcontra
          simp at hcontra
          rw [htr'] at hcontra
          cases hcontra
      · unfold refresh_access_token
        simp [h200]
        exact hInv
    | clientError m => exact hInv
    | otherError m => exact hInv
  refine ⟨?_, ?_, hrefresh, ?_, ?_⟩
  · intro cid cs rt
    intro h
    simp [initAuth, pyTruthyStr] at h
  · intro s now r hInv
    unfold get_access_token
    by_cases hv : is_token_valid s now
    · simp [hv]
      exact hInv
    · simp [hv]
      by_cases hrt : pyTruthyStr s.refresh_token = true
      · simp [hrt]
        have := hrefresh s now r hInv
        cases h : refresh_access_token s now r with
        | mk s' e =>
          cases e <;> simp <;> rw [h] at this <;> exact this
      · have hrt' : pyTruthyStr s.refresh_token = false := by simpa using hrt
        simp [hrt']
        exact hInv
  · intro s now r h
    cases r with
    | ok status body td =>
      by_cases h200 : status = 200
      · subst h200
        by_cases htr : pyTruthyStr td.access_token = true
        · exact ⟨body, td, rfl, by rw [refresh_success s now body td htr]⟩
        · have htr' : pyTruthyStr td.access_token = false := by simpa using htr
          unfold refresh_access_token at h
          simp [htr'] at h
      · unfold refresh_access_token at h
        simp [h200] at h
    | clientError m => simp [refresh_access_token] at h
    | otherError m => simp [refresh_access_token] at h
  · intro s now r h
    exact (refresh_failed_effects s now r h).1

theorem tokenInvariant_preserved_witness :
    tokenInvariant (initAuth "c" "x" (some "rt"))
    ∧ tokenInvariant (get_access_token sampleValid 10000 c9resp).1
    ∧ (refresh_access_token sampleValid 10000 (.clientError "x")).1.token_expires_at
        = sampleValid.token_expires_at :=
  ⟨tokenInvariant_preserved.1 "c" "x" (some "rt"),
   tokenInvariant_preserved.2.1 sampleValid 10000 c9resp (by decide),
   tokenInvariant_preserved.2.2.2.2 sampleValid 10000 (.clientError "x") (by decide)⟩

/-- C10: replacement of the stored refresh token is decided by key
presence, not value: a successful refresh whose response contains a
`refresh_token` key with value `null` replaces the stored refresh token by
`None`; and whenever the stored refresh token is `None` and the cached token
is not valid, `get_access_token` fails with `AuthError` without issuing any
network call. -/
theorem null_refresh_token_replacement (s : AuthState) (now : Int) (body : String)
    (td : TokenData)
    (h : pyTruthyStr td.access_token = true)
    (hf : td.refresh_token_field = some none) :
    (refresh_access_token s now (.ok 200 body td)).2 = none
    ∧ (refresh_access_token s now (.ok 200 body td)).1.refresh_token = none
    ∧ (∀ s2 now2 r2, s2.refresh_token = none → is_token_valid s2 now2 = false →
        get_access_token s2 now2 r2
          = (s2, .error (.authError "No refresh token available. Please reauth."), 0)) := by
  rw [refresh_success s now body td h]
  refine ⟨rfl, by simp [hf], ?_⟩
  intro s2 now2 r2 hrt2 hv2
  unfold get_access_token
  simp [hv2, hrt2, pyTruthyStr]

theorem null_refresh_token_replacement_witness :
    (refresh_access_token sampleValid 50
        (.ok 200 "{}" { access_token := some "n", expires_in := some 100,
                        refresh_token_field := some none })).1.refresh_token = none
    ∧ get_access_token
        { client_id := "c", client_secret := "x", refresh_token := none,
          access_token := some "n", token_expires_at := some 150 }
        10000 (.ok 200 "{}" { access_token := some "m", expires_in := some 100,
                              refresh_token_field := none })
        = ({ client_id := "c", client_secret := "x", refresh_token := none,
             access_token := some "n", token_expires_at := some 150 },
           .error (.authError "No refresh token available. Please reauth."), 0) :=
  have h := null_refresh_token_replacement sampleValid 50 "{}"
    { access_token := some "n", expires_in := some 100, refresh_token_field := some none }
    (by decide) rfl
  ⟨h.2.1, h.2.2
    { client_id := "c", client_secret := "x", refresh_token := none,
      access_token := some "n", token_expires_at := some 150 }
    10000
    (.ok 200 "{}" { access_token := some "m", expires_in := some 100,
                    refresh_token_field := none })
    rfl (by decide)⟩

/-! Branch equations for `stepCaller`. -/

theorem stepCaller_oob (now : Int) (r : PostResult) (c : Config) (i : Nat)
    (h : c.callers.get? i = none) : stepCaller now r c i = c := by
  unfold stepCaller
  rw [h]

theorem stepCaller_done_eq (now : Int) (r : PostResult) (c : Config) (i : Nat)
    (res : Except ErrKind (Option String))
    (h : c.callers.get? i = some (.done res)) : stepCaller now r c i = c := by
  unfold stepCaller
  rw [h]

theorem stepCaller_blocked (now : Int) (r : PostResult) (c : Config) (i j : Nat)
    (h : c.callers.get? i = some .start) (hl : c.lock = some j) :
    stepCaller now r c i = c := by
  unfold stepCaller
  rw [h, hl]

theorem stepCaller_acquire_valid (now : Int) (r : PostResult) (c : Config) (i : Nat)
    (h : c.callers.get? i = some .start) (hl : c.lock = none)
    (hv : is_token_valid c.st now = true) :
    stepCaller now r c i
      = { c with callers := c.callers.set i (.done (.ok c.st.access_token)) } := by
  unfold stepCaller
  rw [h, hl, hv]
  simp

theorem stepCaller_acquire_refresh (now : Int) (r : PostResult) (c : Config) (i : Nat)
    (h : c.callers.get? i = some .start) (hl : c.lock = none)
    (hv : is_token_valid c.st now = false)
    (hrt : pyTruthyStr c.st.refresh_token = true) :
    stepCaller now r c i
      = { c with callers := c.callers.set i .awaitingNet,
                 lock := some i, netCalls := c.netCalls + 1 } := by
  unfold stepCaller
  rw [h, hl, hv, hrt]
  simp

theorem stepCaller_resume_success (now : Int) (r : PostResult) (c : Config) (i : Nat)
    (s' : AuthState)
    (h : c.callers.get? i = some .awaitingNet)
    (hr : refresh_access_token c.st now r = (s', none)) :
    stepCaller now r c i
      = { c with st := s',
                 callers := c.callers.set i (.done (.ok s'.access_token)),
                 lock := none } := by
  unfold stepCaller
  rw [h, hr]

/-- One scheduler step preserves the single-flight invariant. -/
theorem stepCaller_singleFlight (now : Int) (r : PostResult) (s0 s1 : AuthState)
    (tok : String)
    (hv0 : is_token_valid s0 now = false)
    (hrt0 : pyTruthyStr s0.refresh_token = true)
    (hr : refresh_access_token s0 now r = (s1, none))
    (htok : s1.access_token = some tok)
    (hv1 : is_token_valid s1 now = true)
    (c : Config) (i : Nat)
    (hc : singleFlightInv s0 s1 tok c) :
    singleFlightInv s0 s1 tok (stepCaller now r c i) := by
  rcases hc with ⟨h0, hl, hst, hall⟩ | ⟨h1, hst, j, hlj, hj, hall⟩ | ⟨h1, hl, hst, hall⟩
  · -- Case A: no network call yet, nobody has moved.
    cases hgi : c.callers.get? i with
    | none =>
      rw [stepCaller_oob now r c i hgi]
      exact Or.inl ⟨h0, hl, hst, hall⟩
    | some pc =>
      have hpc := hall i pc hgi
      subst hpc
      have hlen : i < c.callers.length := (List.get?_eq_some.mp hgi).1
      have hv0' : is_token_valid c.st now = false := by rw [hst]; exact hv0
      have hrt0' : pyTruthyStr c.st.refresh_token = true := by rw [hst]; exact hrt0
      rw [stepCaller_acquire_refresh now r c i hgi hl hv0' hrt0']
      refine Or.inr (Or.inl ⟨by rw [h0], hst, i, rfl, ?_, ?_⟩)
      · exact List.get?_set_eq_of_lt _ hlen
      · intro k pc hk
        by_cases hki : k = i
        · subst hki
          rw [List.get?_set_eq_of_lt _ hlen] at hk
          exact Or.inr ⟨rfl, (Option.some.injEq _ _).mp hk |>.symm⟩
        · rw [List.get?_set_ne _ _ (fun he => hki he.symm)] at hk
          exact Or.inl (hall k pc hk)
  · -- Case B: the single refresh is in flight, `j` holds the lock.
    cases hgi : c.callers.get? i with
    | none =>
      rw [stepCaller_oob now r c i hgi]
      exact Or.inr (Or.inl ⟨h1, hst, j, hlj, hj, hall⟩)
    | some pc =>
      rcases hall i pc hgi with hpc | ⟨hij, hpc⟩
      · subst hpc
        rw [stepCaller_blocked now r c i j hgi hlj]
        exact Or.inr (Or.inl ⟨h1, hst, j, hlj, hj, hall⟩)
      · subst hij
        subst hpc
        have hlen : i < c.callers.length := (List.get?_eq_some.mp hgi).1
        have hr' : refresh_access_token c.st now r = (s1, none) := by
          rw [hst]; exact hr
        rw [stepCaller_resume_success now r c i s1 hgi hr']
        refine Or.inr (Or.inr ⟨h1, rfl, rfl, ?_⟩)
        intro k pc hk
        by_cases hki : k = i
        · subst hki
          rw [List.get?_set_eq_of_lt _ hlen] at hk
          refine Or.inr ?_
          rw [htok] at hk
          exact ((Option.some.injEq _ _).mp hk).symm
        · rw [List.get?_set_ne _ _ (fun he => hki he.symm)] at hk
          rcases hall k pc hk with hpc | ⟨hkj, _⟩
          · exact Or.inl hpc
          · exact absurd hkj hki
  · -- Case C: the refresh has landed, state is `s1`, token is valid.
    cases hgi : c.callers.get? i with
    | none =>
      rw [stepCaller_oob now r c i hgi]
      exact Or.inr (Or.inr ⟨h1, hl, hst, hall⟩)
    | some pc =>
      rcases hall i pc hgi with hpc | hpc
      · subst hpc
        have hlen : i < c.callers.length := (List.get?_eq_some.mp hgi).1
        have hv1' : is_token_valid c.st now = true := by rw [hst]; exact hv1
        rw [stepCaller_acquire_valid now r c i hgi hl hv1']
        refine Or.inr (Or.inr ⟨h1, hl, hst, ?_⟩)
        intro k pc hk
        by_cases hki : k = i
        · subst hki
          rw [List.get?_set_eq_of_lt _ hlen] at hk
          refine Or.inr ?_
          have : c.st.access_token = some tok := by rw [hst]; exact htok
          rw [this] at hk
          exact ((Option.some.injEq _ _).mp hk).symm
        · rw [List.get?_set_ne _ _ (fun he => hki he.symm)] at hk
          exact hall k pc hk
      · subst hpc
        rw [stepCaller_done_eq now r c i _ hgi]
        exact Or.inr (Or.inr ⟨h1, hl, hst, hall⟩)

/-- The invariant holds along every schedule. -/
theorem runSched_singleFlight (now : Int) (r : PostResult) (s0 s1 : AuthState)
    (tok : String)
    (hv0 : is_token_valid s0 now = false)
    (hrt0 : pyTruthyStr s0.refresh_token = true)
    (hr : refresh_access_token s0 now r = (s1, none))
    (htok : s1.access_token = some tok)
    (hv1 : is_token_valid s1 now = true)
    (sched : List Nat) (c : Config)
    (hc : singleFlightInv s0 s1 tok c) :
    singleFlightInv s0 s1 tok (runSched now r c sched) := by
  induction sched generalizing c with
  | nil => exact hc
  | cons i rest ih =>
    exact ih _ (stepCaller_singleFlight now r s0 s1 tok hv0 hrt0 hr htok hv1 c i hc)

/-- The initial configuration satisfies the invariant. -/
theorem initConfig_singleFlight (s0 s1 : AuthState) (tok : String) (n : Nat) :
    singleFlightInv s0 s1 tok (initConfig s0 n) := by
  refine Or.inl ⟨rfl, rfl, rfl, fun k pc h => ?_⟩
  exact List.eq_of_mem_replicate (List.get?_mem h)

/-- C2: single-flight refresh: when any number of callers invoke
`get_access_token` concurrently (any interleaving, i.e. any schedule of the
cooperative model) on one manager whose cached token is absent or expired,
at most one refresh network call is ever issued, every caller that has
completed received the token produced by that single refresh, and as soon as
any caller has completed, exactly one network call has been issued.
Hypotheses: a refresh token is stored, and the (single) refresh response is
a 200 whose token is usable and outlives the 60-second validity margin. -/
theorem get_access_token_single_flight
    (s0 : AuthState) (now : Int) (body : String) (td : TokenData) (tok : String)
    (n : Nat) (sched : List Nat)
    (hv : is_token_valid s0 now = false)
    (hrt : pyTruthyStr s0.refresh_token = true)
    (htok : td.access_token = some tok) (hne : tok ≠ "")
    (hnow : 0 ≤ now) (hei : 60 < td.expires_in.getD 3600) :
    (runSched now (.ok 200 body td) (initConfig s0 n) sched).netCalls ≤ 1
    ∧ (∀ k res,
        (runSched now (.ok 200 body td) (initConfig s0 n) sched).callers.get? k
          = some (.done res) → res = .ok (some tok))
    ∧ ((∃ k res,
        (runSched now (.ok 200 body td) (initConfig s0 n) sched).callers.get? k
          = some (.done res)) →
        (runSched now (.ok 200 body td) (initConfig s0 n) sched).netCalls = 1) := by
  have htr : pyTruthyStr td.access_token = true := by
    rw [htok]
    exact pyTruthyStr_of_ne hne
  have hr := refresh_success s0 now body td htr
  have hs1tok : (refresh_access_token s0 now (.ok 200 body td)).1.access_token
      = some tok := by
    rw [hr]
    exact htok
  have hs1exp : (refresh_access_token s0 now (.ok 200 body td)).1.token_expires_at
      = some (now + td.expires_in.getD 3600) := by
    rw [hr]
  have hv1 : is_token_valid (refresh_access_token s0 now (.ok 200 body td)).1 now
      = true :=
    is_token_valid_true _ now tok (now + td.expires_in.getD 3600) hs1tok hne hs1exp
      (by omega) (by omega)
  have hr' : refresh_access_token s0 now (.ok 200 body td)
      = ((refresh_access_token s0 now (.ok 200 body td)).1, none) := by
    rw [hr]
  have hinv := runSched_singleFlight now (.ok 200 body td) s0
    (refresh_access_token s0 now (.ok 200 body td)).1 tok hv hrt hr' hs1tok hv1
    sched (initConfig s0 n)
    (initConfig_singleFlight s0 (refresh_access_token s0 now (.ok 200 body td)).1 tok n)
  rcases hinv with ⟨h0, _, _, hall⟩ | ⟨h1, _, j, _, _, hall⟩ | ⟨h1, _, _, hall⟩
  · refine ⟨by omega, fun k res hk => ?_, ?_⟩
    · exact CallerPC.noConfusion (hall k _ hk)
    · rintro ⟨k, res, hk⟩
      exact CallerPC.noConfusion (hall k _ hk)
  · refine ⟨by omega, fun k res hk => ?_, fun _ => h1⟩
    rcases hall k _ hk with h | ⟨_, h⟩ <;> exact CallerPC.noConfusion h
  · refine ⟨by omega, fun k res hk => ?_, fun _ => h1⟩
    rcases hall k _ hk with h | h
    · exact CallerPC.noConfusion h
    · exact (CallerPC.done.injEq _ _).mp h

theorem get_access_token_single_flight_witness :
    (runSched 100 (.ok 200 "{}"
        { access_token := some "new", expires_in := some 3600,
          refresh_token_field := none })
      (initConfig (initAuth "c" "x" (some "rt")) 4)
      [0, 1, 2, 0, 0, 3, 1, 2, 3]).netCalls ≤ 1
    ∧ (∀ k res,
        (runSched 100 (.ok 200 "{}"
            { access_token := some "new", expires_in := some 3600,
              refresh_token_field := none })
          (initConfig (initAuth "c" "x" (some "rt")) 4)
          [0, 1, 2, 0, 0, 3, 1, 2, 3]).callers.get? k
          = some (.done res) → res = .ok (some "new"))
    ∧ ((∃ k res,
        (runSched 100 (.ok 200 "{}"
            { access_token := some "new", expires_in := some 3600,
              refresh_token_field := none })
          (initConfig (initAuth "c" "x" (some "rt")) 4)
          [0, 1, 2, 0, 0, 3, 1, 2, 3]).callers.get? k
          = some (.done res)) →
        (runSched 100 (.ok 200 "{}"
            { access_token := some "new", expires_in := some 3600,
              refresh_token_field := none })
          (initConfig (initAuth "c" "x" (some "rt")) 4)
          [0, 1, 2, 0, 0, 3, 1, 2, 3]).netCalls = 1) :=
  get_access_token_single_flight (initAuth "c" "x" (some "rt")) 100 "{}"
    { access_token := some "new", expires_in := some 3600,
      refresh_token_field := none }
    "new" 4 [0, 1, 2, 0, 0, 3, 1, 2, 3]
    (by decide) (by decide) rfl (by decide) (by decide) (by decide)

/-- C8: `extract_user_id_from_token` is total (modelled, like the
unsigned decode of PyJWT, as a function into `Option`: it never raises): on every
input it returns exactly the `sub` claim of the decoded payload when the
token decodes and the claim is present, and `None` otherwise; in particular
`"not-a-jwt"` yields `None`, and a well-formed token with payload
`{"sub":"user-123"}` yields `"user-123"`. -/
theorem extract_subject_claim_spec :
    (∀ t, extract_user_id_from_token t
        = (jwtDecodeUnverified t).bind (fun fields => dictGet fields "sub"))
    ∧ extract_user_id_from_token "not-a-jwt" = none
    ∧ extract_user_id_from_token "eyJhbGciOiJIUzI1NiJ9.eyJzdWIiOiJ1c2VyLTEyMyJ9.sig"
        = some (.str "user-123") := by
  refine ⟨fun t => ?_, rfl, rfl⟩
  unfold extract_user_id_from_token
  cases jwtDecodeUnverified t <;> rfl
